import Mathlib

/-!
Verification development for the DashVentanas Gantt dashboard (src/app.py).

The script loads a CSV of maintenance activities into a process-wide
pandas DataFrame, derives the dropdown options from the distinct non-null
values of the EQUIPO column, and on every dropdown change filters the
table by the selected equipment, renames the columns to the presentation
roles expected by the charting library, sorts by (Resource, Start) and
hands the result to the external renderer.

The embedding below translates that pipeline into Lean: machine data
frames become lists of records, pandas timestamp parsing becomes an
explicit parser for the minute-resolution ISO format carried by the data,
and the external charting library (out of scope per the design: it is an
external collaborator that accepts a structured timeline dataset) is
modelled as a constructor that records the arguments it is called with
in a chart-specification structure.
-/

namespace DashVentanas

/-- One raw CSV row as read by pd.read_csv, before timestamp coercion.
The EQUIPO cell may be missing (pandas NaN), modelled as none. -/
structure RawRow where
  EQUIPO : Option String
  ACTIVIDAD : String
  PERSONA : String
  Prioridad : String
  start_time : String
  end_time : String
  deriving DecidableEq

/-- One Activity Record after the loader coerced the two time columns.
Timestamps are encoded as the natural number YYYYMMDDHHMM, which is
order-isomorphic to the chronological order of the instants. -/
structure Activity where
  EQUIPO : Option String
  ACTIVIDAD : String
  PERSONA : String
  Prioridad : String
  start_time : Nat
  end_time : Nat
  deriving DecidableEq

/-- Numeric value of a decimal digit character. -/
def digitVal (c : Char) : Nat := c.toNat - 48

/-- Value of a list of decimal digit characters, most significant first. -/
def digitsVal (cs : List Char) : Nat := cs.foldl (fun a c => a * 10 + digitVal c) 0

/-- Model of the pandas timestamp parser (pd.to_datetime applied to one
cell), restricted to the minute-resolution ISO format YYYY-MM-DDTHH:MM
(a space is also accepted as date/time separator) carried by the data.
Any other shape fails to parse. -/
def parseTimestamp (s : String) : Option Nat :=
  match s.toList with
  | [y1, y2, y3, y4, sep1, mo1, mo2, sep2, d1, d2, sepT, h1, h2, sepC, mi1, mi2] =>
    if sep1 = '-' ∧ sep2 = '-' ∧ (sepT = 'T' ∨ sepT = ' ') ∧ sepC = ':'
        ∧ ([y1, y2, y3, y4, mo1, mo2, d1, d2, h1, h2, mi1, mi2].all Char.isDigit) = true then
      some (digitsVal [y1, y2, y3, y4, mo1, mo2, d1, d2, h1, h2, mi1, mi2])
    else none
  | _ => none

/-- Python-level errors that the script can raise past the try/except
(which catches only FileNotFoundError): a KeyError from indexing a
DataFrame column that does not exist, or a parse error raised by
pd.to_datetime on a malformed timestamp cell. -/
inductive PyError where
  | keyError (col : String)
  | malformedTimestamp (val : String)
  deriving DecidableEq

/-- Model of pd.to_datetime over a whole column: parses every cell, and
raises on the first unparseable cell, producing no partial column. -/
def to_datetime : List String → Except PyError (List Nat)
  | [] => .ok []
  | v :: vs =>
    match parseTimestamp v with
    | none => .error (.malformedTimestamp v)
    | some t =>
      match to_datetime vs with
      | .error e => .error e
      | .ok ts => .ok (t :: ts)

/-- The in-memory DataFrame. hasActivityColumns records whether the frame
carries the activity columns (EQUIPO, ACTIVIDAD A EJECUTAR, ...): a frame
loaded from a well-formed CSV does, while the empty fallback frame
pd.DataFrame() created at line 26 of app.py has no columns at all, so
indexing any column of it raises KeyError. -/
structure DataFrame where
  hasActivityColumns : Bool
  rows : List Activity
  deriving DecidableEq

/-- Rebuild the activity rows from the raw rows and the two parsed
timestamp columns (the two column assignments at lines 20-21 of app.py). -/
def mkActivities : List RawRow → List Nat → List Nat → List Activity
  | r :: rs, s :: ss, e :: es =>
    ⟨r.EQUIPO, r.ACTIVIDAD, r.PERSONA, r.Prioridad, s, e⟩ :: mkActivities rs ss es
  | _, _, _ => []

/-- Outcome of attempting to read the CSV file: the file is absent
(FileNotFoundError) or present with some raw rows. -/
inductive FileResult where
  | missing
  | present (rows : List RawRow)
  deriving DecidableEq

/-- Result of the load step: the DataFrame bound to the global df, and
the diagnostic line printed. -/
structure LoadOutcome where
  df : DataFrame
  diagnostic : String
  deriving DecidableEq

/-- Diagnostic printed when the CSV file is absent. -/
def missingFileMessage : String :=
  "Error: The file 'unified_gantt_data.csv' was not found. Please ensure it's in the same directory as app.py."

/-- The load step (lines 17-26 of app.py): on FileNotFoundError it
substitutes the column-less empty DataFrame and continues; otherwise it
parses the two timestamp columns, and a parse failure propagates (it is
not a FileNotFoundError, so the except clause does not catch it). -/
def load : FileResult → Except PyError LoadOutcome
  | .missing => .ok ⟨⟨false, []⟩, missingFileMessage⟩
  | .present rows =>
    match to_datetime (rows.map RawRow.start_time) with
    | .error e => .error e
    | .ok starts =>
      match to_datetime (rows.map RawRow.end_time) with
      | .error e => .error e
      | .ok ends =>
        .ok ⟨⟨true, mkActivities rows starts ends⟩, "Unified DataFrame loaded successfully."⟩

/-- First-seen deduplication with an accumulator of already-seen values:
the behaviour of pandas Series.unique, which returns the distinct values
in order of first occurrence. -/
def uniqueAux (seen : List String) : List String → List String
  | [] => []
  | x :: xs => if x ∈ seen then uniqueAux seen xs else x :: uniqueAux (x :: seen) xs

/-- Line 33 of app.py: df['EQUIPO'].dropna().unique(). Indexing the
EQUIPO column raises KeyError when the frame has no columns; otherwise
dropna removes the missing cells and unique keeps the first occurrence
of each value. -/
def unique_equipos (df : DataFrame) : Except PyError (List String) :=
  if df.hasActivityColumns then
    .ok (uniqueAux [] (df.rows.filterMap Activity.EQUIPO))
  else .error (.keyError "EQUIPO")

/-- Index of the first occurrence of x (length of the list when x is
absent). -/
def firstIdx (x : String) : List String → Nat
  | [] => 0
  | y :: ys => if y = x then 0 else firstIdx x ys + 1

/-- One dropdown option dictionary. -/
structure DropdownOption where
  label : String
  value : String
  deriving DecidableEq

/-- The option list of the dropdown (lines 43-46 of app.py). -/
def dropdown_options (eqs : List String) : List DropdownOption :=
  eqs.map fun e => ⟨e, e⟩

/-- The initial dropdown value (line 47 of app.py):
unique_equipos[0] if len(unique_equipos) > 0 else None. -/
def dropdown_value (eqs : List String) : Option String :=
  if 0 < eqs.length then eqs[0]? else none

/-- The state produced by a completed startup: the global DataFrame, the
load diagnostic, and the dropdown configuration of the layout. -/
structure AppStartup where
  df : DataFrame
  diagnostic : String
  options : List DropdownOption
  initial : Option String
  deriving DecidableEq

/-- Module-level startup: the load step, then the computation of
unique_equipos and the layout. An error in either step crashes startup. -/
def startup (fr : FileResult) : Except PyError AppStartup :=
  match load fr with
  | .error e => .error e
  | .ok o =>
    match unique_equipos o.df with
    | .error e => .error e
    | .ok eqs => .ok ⟨o.df, o.diagnostic, dropdown_options eqs, dropdown_value eqs⟩

/-- One row of the Filtered View handed to the charting library: the
columns of the activity row, with the four renamed columns under their
presentation names. -/
structure ViewRecord where
  EQUIPO : Option String
  Task : String
  Resource : String
  Prioridad : String
  Start : Nat
  Finish : Nat
  deriving DecidableEq

/-- The rename at lines 68-73 of app.py: ACTIVIDAD A EJECUTAR becomes
Task, start_time becomes Start, end_time becomes Finish, PERSONA
ASIGNADA A LA ACTIVIDAD becomes Resource; the remaining columns
(EQUIPO, Prioridad) are carried over unchanged. -/
def renameColumns (a : Activity) : ViewRecord :=
  ⟨a.EQUIPO, a.ACTIVIDAD, a.PERSONA, a.Prioridad, a.start_time, a.end_time⟩

/-- The inverse of the rename: restores the original column roles. -/
def renameInverse (v : ViewRecord) : Activity :=
  ⟨v.EQUIPO, v.Task, v.Resource, v.Prioridad, v.Start, v.Finish⟩

/-- The lexicographic (Resource, Start) order used by
sort_values(by=['Resource', 'Start']) at line 76 of app.py. -/
def viewLe (a b : ViewRecord) : Prop :=
  a.Resource < b.Resource ∨ (a.Resource = b.Resource ∧ a.Start ≤ b.Start)

instance viewLe.decidableRel : DecidableRel viewLe := fun a b =>
  decidable_of_iff
    (a.Resource.toList < b.Resource.toList ∨ (a.Resource = b.Resource ∧ a.Start ≤ b.Start))
    (by unfold viewLe; rw [String.lt_iff_toList_lt])

instance viewLe.isTotal : IsTotal ViewRecord viewLe := by
  constructor
  intro a b
  rcases lt_trichotomy a.Resource b.Resource with h | h | h
  · exact Or.inl (Or.inl h)
  · rcases Nat.le_total a.Start b.Start with h2 | h2
    · exact Or.inl (Or.inr ⟨h, h2⟩)
    · exact Or.inr (Or.inr ⟨h.symm, h2⟩)
  · exact Or.inr (Or.inl h)

instance viewLe.isTrans : IsTrans ViewRecord viewLe := by
  constructor
  intro a b c hab hbc
  rcases hab with hab | ⟨hab, hab2⟩
  · rcases hbc with hbc | ⟨hbc, _⟩
    · exact Or.inl (hab.trans hbc)
    · exact Or.inl (hbc ▸ hab)
  · rcases hbc with hbc | ⟨hbc, hbc2⟩
    · exact Or.inl (hab ▸ hbc)
    · exact Or.inr ⟨hab.trans hbc, hab2.trans hbc2⟩

/-- Lines 65-76 of app.py: select the rows whose EQUIPO equals the key
(a fresh copy, leaving the global frame untouched), rename the columns
to their presentation roles, and sort by (Resource, Start).
pandas sort_values over several keys is a stable lexicographic sort
(numpy lexsort), which the stable insertionSort denotes exactly. -/
def filterTransform (rows : List Activity) (k : String) : List ViewRecord :=
  List.insertionSort viewLe ((rows.filter fun a => a.EQUIPO == some k).map renameColumns)

/-- The chart specification: the arguments the script hands to the
external charting library, together with the customizations applied by
the update_yaxes / update_traces / update_layout calls. -/
structure Figure where
  data : List ViewRecord
  x_start : Option String
  x_end : Option String
  y : Option String
  color : Option String
  color_discrete_map : List (String × String)
  text : Option String
  title : Option String
  categoryorder : Option String
  textposition : Option String
  hovertemplate : Option String
  customdata : List (Nat × String)
  hovermode : Option String
  xaxis_title : Option String
  yaxis_title : Option String
  legend_title : Option String
  deriving DecidableEq

/-- Model of the external charting library's timeline constructor, per
the design boundary: an external collaborator that accepts a structured
timeline dataset plus encodings and produces a visual. The chart
specification records the dataset (one bar per row) and the encodings
passed. -/
def px_timeline (data : List ViewRecord) (x_start x_end y color : Option String)
    (cmap : List (String × String)) (text title : Option String) : Figure :=
  ⟨data, x_start, x_end, y, color, cmap, text, title, none, none, none, [], none, none, none, none⟩

/-- Line 89 of app.py: fig.update_yaxes(categoryorder=...). -/
def update_yaxes (f : Figure) (order : String) : Figure :=
  { f with categoryorder := some order }

/-- Line 90 of app.py: fig.update_traces(textposition=...). -/
def update_traces_position (f : Figure) (pos : String) : Figure :=
  { f with textposition := some pos }

/-- Lines 93-94 of app.py: fig.update_traces(hovertemplate=..., customdata=...). -/
def update_traces_hover (f : Figure) (tmpl : String) (cd : List (Nat × String)) : Figure :=
  { f with hovertemplate := some tmpl, customdata := cd }

/-- Lines 96-102 of app.py: fig.update_layout(...). -/
def update_layout_titles (f : Figure) : Figure :=
  { f with hovermode := some "closest", xaxis_title := some "Tiempo",
           yaxis_title := some "Persona Asignada", legend_title := some "Prioridad" }

/-- The hover template string of line 93 of app.py. -/
def hoverTemplate : String :=
  "<b>Task:</b> %\x7btext\x7d<br><b>Person:</b> %\x7by\x7d<br><b>Start:</b> %\x7bx|%Y-%m-%d %H:%M\x7d<br><b>Finish:</b> %\x7bcustomdata[0]|%Y-%m-%d %H:%M\x7d<br><b>Priority:</b> %\x7bcustomdata[1]\x7d<extra></extra>"

/-- The priority colour dictionary of lines 9-13 of app.py. -/
def prioridad_colors : List (String × String) :=
  [("ALTA", "red"), ("MEDIA", "orange"), ("BAJA", "green")]

/-- The figure returned by the empty-selection branch at line 63 of
app.py: the timeline constructor applied to an empty frame that carries
the five presentation columns, with no encodings. -/
def empty_timeline_figure : Figure :=
  px_timeline [] none none none none [] none none

/-- The callback update_gantt_chart (lines 61-104 of app.py). A falsy
selection (None or the empty string) short-circuits to the empty figure
without touching the global frame; otherwise the frame is filtered
(which indexes the EQUIPO column, a KeyError on a column-less frame),
transformed and handed to the charting library, and the customizations
are applied. -/
def update_gantt_chart (df : DataFrame) (selected_equipment : Option String) :
    Except PyError Figure :=
  match selected_equipment with
  | none => .ok empty_timeline_figure
  | some k =>
    if k = "" then .ok empty_timeline_figure
    else if df.hasActivityColumns then
      let filtered_df := filterTransform df.rows k
      let fig := px_timeline filtered_df (some "Start") (some "Finish") (some "Resource")
        (some "Prioridad") prioridad_colors (some "Task")
        (some ("Gantt Chart para " ++ k ++ " (por Persona)"))
      let fig := update_yaxes fig "total ascending"
      let fig := update_traces_position fig "inside"
      let fig := update_traces_hover fig hoverTemplate
        (filtered_df.map fun v => (v.Finish, v.Prioridad))
      .ok (update_layout_titles fig)
    else .error (.keyError "EQUIPO")

/-- Python truthiness of the dropdown value: None and the empty string
are the falsy values a string-valued dropdown can deliver. -/
def isFalsy : Option String → Bool
  | none => true
  | some s => s == ""

/-- The process-wide state visible to the callback: the global DataFrame
and the global colour dictionary. -/
structure ProcState where
  df : DataFrame
  colors : List (String × String)
  deriving DecidableEq

/-- One selection event: the callback computes a figure from the shared
state; the filter step works on a copy (line 65), the rename and sort
produce fresh frames, so the shared state after the event is the shared
state before it. -/
def selectionEvent (s : ProcState) (k : Option String) :
    Except PyError Figure × ProcState :=
  (update_gantt_chart s.df k, s)

/-- A sequence of selection events threaded through the shared state. -/
def runEvents (s : ProcState) : List (Option String) → ProcState
  | [] => s
  | k :: ks => runEvents (selectionEvent s k).2 ks

/-- The two raw rows of the specification scenario: equipment A, Bob
inspecting from 08:00 and Ann repairing from 09:00 on 2024-01-01. -/
def scenarioRaw : List RawRow :=
  [⟨some "A", "Inspect", "Bob", "ALTA", "2024-01-01T08:00", "2024-01-01T10:00"⟩,
   ⟨some "A", "Repair", "Ann", "MEDIA", "2024-01-01T09:00", "2024-01-01T11:00"⟩]

/-- The first scenario row after timestamp coercion. -/
def bobActivity : Activity := ⟨some "A", "Inspect", "Bob", "ALTA", 202401010800, 202401011000⟩

/-- The second scenario row after timestamp coercion. -/
def annActivity : Activity := ⟨some "A", "Repair", "Ann", "MEDIA", 202401010900, 202401011100⟩

/-- A raw row whose start timestamp does not parse. -/
def badRaw : RawRow := ⟨some "A", "T", "P", "ALTA", "garbage", "2024-01-01T10:00"⟩

theorem mem_uniqueAux {x : String} (l : List String) : ∀ seen,
    (x ∈ uniqueAux seen l ↔ x ∈ l ∧ x ∉ seen) := by
  induction l with
  | nil => intro seen; simp [uniqueAux]
  | cons z zs ih =>
    intro seen
    by_cases hz : z ∈ seen
    · rw [uniqueAux, if_pos hz, ih seen]
      constructor
      · rintro ⟨h1, h2⟩
        exact ⟨List.mem_cons_of_mem _ h1, h2⟩
      · rintro ⟨h1, h2⟩
        rcases List.mem_cons.mp h1 with rfl | h1
        · exact absurd hz h2
        · exact ⟨h1, h2⟩
    · rw [uniqueAux, if_neg hz, List.mem_cons, ih (z :: seen)]
      constructor
      · rintro (rfl | ⟨h1, h2⟩)
        · exact ⟨List.mem_cons_self _ _, hz⟩
        · exact ⟨List.mem_cons_of_mem _ h1, fun hs => h2 (List.mem_cons_of_mem _ hs)⟩
      · rintro ⟨h1, h2⟩
        rcases List.mem_cons.mp h1 with rfl | h1
        · exact Or.inl rfl
        · by_cases hxz : x = z
          · exact Or.inl hxz
          · exact Or.inr ⟨h1, fun hs => (List.mem_cons.mp hs).elim hxz h2⟩

theorem nodup_uniqueAux (l : List String) : ∀ seen, (uniqueAux seen l).Nodup := by
  induction l with
  | nil => intro seen; simp [uniqueAux]
  | cons z zs ih =>
    intro seen
    by_cases hz : z ∈ seen
    · rw [uniqueAux, if_pos hz]
      exact ih seen
    · rw [uniqueAux, if_neg hz]
      refine List.nodup_cons.mpr ⟨?_, ih (z :: seen)⟩
      intro hmem
      exact ((mem_uniqueAux zs (z :: seen)).mp hmem).2 (List.mem_cons_self z seen)

theorem pairwise_firstIdx_uniqueAux (l : List String) : ∀ seen,
    (uniqueAux seen l).Pairwise (fun a b => firstIdx a l < firstIdx b l) := by
  induction l with
  | nil => intro seen; simp [uniqueAux]
  | cons z zs ih =>
    intro seen
    by_cases hz : z ∈ seen
    · rw [uniqueAux, if_pos hz]
      refine List.Pairwise.imp_of_mem ?_ (ih seen)
      intro a b ha hb hab
      have haz : ¬ z = a := fun h => ((mem_uniqueAux zs seen).mp ha).2 (h ▸ hz)
      have hbz : ¬ z = b := fun h => ((mem_uniqueAux zs seen).mp hb).2 (h ▸ hz)
      simp only [firstIdx, if_neg haz, if_neg hbz]
      exact Nat.succ_lt_succ hab
    · rw [uniqueAux, if_neg hz]
      rw [List.pairwise_cons]
      constructor
      · intro b hb
        have hbz : ¬ z = b := fun h =>
          ((mem_uniqueAux zs (z :: seen)).mp hb).2 (h ▸ List.mem_cons_self z seen)
        simp only [firstIdx, if_pos rfl, if_neg hbz]
        exact Nat.succ_pos _
      · refine List.Pairwise.imp_of_mem ?_ (ih (z :: seen))
        intro a b ha hb hab
        have haz : ¬ z = a := fun h =>
          ((mem_uniqueAux zs (z :: seen)).mp ha).2 (h ▸ List.mem_cons_self z seen)
        have hbz : ¬ z = b := fun h =>
          ((mem_uniqueAux zs (z :: seen)).mp hb).2 (h ▸ List.mem_cons_self z seen)
        simp only [firstIdx, if_neg haz, if_neg hbz]
        exact Nat.succ_lt_succ hab

theorem dropdown_value_eq_head : ∀ eqs : List String, dropdown_value eqs = eqs.head?
  | [] => rfl
  | _ :: _ => by simp [dropdown_value]

theorem to_datetime_error_of_bad {vs : List String}
    (h : ∃ v ∈ vs, parseTimestamp v = none) :
    ∃ w, to_datetime vs = Except.error (PyError.malformedTimestamp w) := by
  induction vs with
  | nil => simp at h
  | cons v vs ih =>
    cases hp : parseTimestamp v with
    | none => exact ⟨v, by simp [to_datetime, hp]⟩
    | some t =>
      rcases h with ⟨u, hu, hpu⟩
      have hu' : u ∈ vs := by
        rcases List.mem_cons.mp hu with rfl | h1
        · rw [hp] at hpu; cases hpu
        · exact h1
      rcases ih ⟨u, hu', hpu⟩ with ⟨w, hw⟩
      exact ⟨w, by simp [to_datetime, hp, hw]⟩

theorem to_datetime_ok_of_good {vs : List String}
    (h : ∀ v ∈ vs, (parseTimestamp v).isSome) :
    ∃ ts, to_datetime vs = Except.ok ts := by
  induction vs with
  | nil => exact ⟨[], rfl⟩
  | cons v vs ih =>
    cases hp : parseTimestamp v with
    | none => exact absurd (h v (List.mem_cons_self _ _)) (by simp [hp])
    | some t =>
      rcases ih (fun u hu => h u (List.mem_cons_of_mem _ hu)) with ⟨ts, hts⟩
      exact ⟨t :: ts, by simp [to_datetime, hp, hts]⟩

theorem mem_filterTransform {rows : List Activity} {k : String} {v : ViewRecord}
    (hv : v ∈ filterTransform rows k) :
    ∃ a ∈ rows, a.EQUIPO = some k ∧ v = renameColumns a := by
  rw [filterTransform, List.mem_insertionSort] at hv
  rcases List.mem_map.mp hv with ⟨a, ha, rfl⟩
  rcases List.mem_filter.mp ha with ⟨ha1, ha2⟩
  exact ⟨a, ha1, by simpa using ha2, rfl⟩

theorem update_gantt_chart_main (rows : List Activity) (k : String) (hk : ¬ k = "") :
    update_gantt_chart ⟨true, rows⟩ (some k) =
      Except.ok (update_layout_titles (update_traces_hover (update_traces_position
        (update_yaxes (px_timeline (filterTransform rows k) (some "Start") (some "Finish")
          (some "Resource") (some "Prioridad") prioridad_colors (some "Task")
          (some ("Gantt Chart para " ++ k ++ " (por Persona)"))) "total ascending") "inside")
        hoverTemplate ((filterTransform rows k).map fun v => (v.Finish, v.Prioridad)))) := by
  simp [update_gantt_chart, hk]

theorem update_gantt_chart_main_data (rows : List Activity) (k : String) (hk : ¬ k = "") :
    ∃ fig, update_gantt_chart ⟨true, rows⟩ (some k) = Except.ok fig
      ∧ fig.data = filterTransform rows k :=
  ⟨_, update_gantt_chart_main rows k hk, rfl⟩

theorem runEvents_eq (ks : List (Option String)) : ∀ s, runEvents s ks = s := by
  induction ks with
  | nil => intro s; rfl
  | cons k ks ih => intro s; exact ih s

/-- Claim C1: filtering the table by an equipment key returns exactly the
records whose EQUIPO column equals the key under exact case-sensitive
string comparison (each output record is the rename of a source record
with that key, and the output is a permutation of the renamed matching
rows), and the number of returned records equals the number of source
rows whose EQUIPO equals the key. -/
theorem claim_C1_filter_exact (rows : List Activity) (k : String) :
    (filterTransform rows k).Perm ((rows.filter fun a => a.EQUIPO == some k).map renameColumns)
    ∧ (filterTransform rows k).length = (rows.filter fun a => a.EQUIPO == some k).length
    ∧ ∀ v ∈ filterTransform rows k, ∃ a ∈ rows, a.EQUIPO = some k ∧ v = renameColumns a := by
  refine ⟨List.perm_insertionSort viewLe _, ?_, fun v hv => mem_filterTransform hv⟩
  rw [filterTransform, List.length_insertionSort, List.length_map]

/-- Witness for C1: on the scenario table the record Ann/Repair of the
filtered view traces back to a source row with equipment A. -/
theorem claim_C1_filter_exact_witness :
    ∃ a ∈ [bobActivity, annActivity], a.EQUIPO = some "A"
      ∧ (⟨some "A", "Repair", "Ann", "MEDIA", 202401010900, 202401011100⟩ : ViewRecord)
          = renameColumns a :=
  (claim_C1_filter_exact [bobActivity, annActivity] "A").2.2 _ (by decide)

/-- Claim C2: the Filtered View is sorted ascending by (Resource, Start);
records with equal Resource and Start keep their relative source order
(stability); and on the scenario table with equipment A, persons Bob
(start 08:00) and Ann (start 09:00), loading succeeds and the filtered
output is Ann/Repair followed by Bob/Inspect. -/
theorem claim_C2_sorted_stable :
    (∀ (rows : List Activity) (k : String), (filterTransform rows k).Sorted viewLe)
    ∧ (∀ (rows : List Activity) (k : String) (a b : ViewRecord),
        a.Resource = b.Resource → a.Start = b.Start →
        [a, b].Sublist ((rows.filter fun x => x.EQUIPO == some k).map renameColumns) →
        [a, b].Sublist (filterTransform rows k))
    ∧ load (.present scenarioRaw) =
        Except.ok ⟨⟨true, [bobActivity, annActivity]⟩, "Unified DataFrame loaded successfully."⟩
    ∧ filterTransform [bobActivity, annActivity] "A"
        = [renameColumns annActivity, renameColumns bobActivity] := by
  refine ⟨fun rows k => List.sorted_insertionSort viewLe _, ?_, rfl, by decide⟩
  intro rows k a b hr hs hsub
  exact List.pair_sublist_insertionSort (Or.inr ⟨hr, le_of_eq hs⟩) hsub

/-- Witness for C2: two records sharing Resource and Start keep their
source order through the sort. -/
theorem claim_C2_sorted_stable_witness :
    [renameColumns ⟨some "E", "first", "P", "ALTA", 10, 20⟩,
     renameColumns ⟨some "E", "second", "P", "MEDIA", 10, 30⟩].Sublist
      (filterTransform [⟨some "E", "first", "P", "ALTA", 10, 20⟩,
        ⟨some "E", "second", "P", "MEDIA", 10, 30⟩] "E") :=
  claim_C2_sorted_stable.2.1 _ "E" _ _ rfl rfl (by decide)

/-- Claim C3 (code bug): when the input file is missing, the load step
itself recovers with the empty DataFrame and the MissingFile diagnostic,
but startup then crashes: the empty fallback frame has no columns, so
computing unique_equipos raises KeyError instead of continuing to an
empty selector-less chart. -/
theorem claim_C3_missing_file_crash :
    load .missing = Except.ok ⟨⟨false, []⟩, missingFileMessage⟩
    ∧ unique_equipos ⟨false, []⟩ = Except.error (PyError.keyError "EQUIPO")
    ∧ startup .missing = Except.error (PyError.keyError "EQUIPO") :=
  ⟨rfl, rfl, rfl⟩

/-- Claim C4: if the file exists but any row's start or end timestamp is
unparseable, the load fails as a whole with a malformed-timestamp error
that the missing-file handler does not catch, no table is produced, and
the error propagates through startup. -/
theorem claim_C4_malformed_timestamp_fatal (rows : List RawRow)
    (h : ∃ r ∈ rows, parseTimestamp r.start_time = none ∨ parseTimestamp r.end_time = none) :
    (∃ v, load (.present rows) = Except.error (PyError.malformedTimestamp v))
    ∧ ∃ v, startup (.present rows) = Except.error (PyError.malformedTimestamp v) := by
  have main : ∃ v, load (.present rows) = Except.error (PyError.malformedTimestamp v) := by
    by_cases hs : ∃ v ∈ rows.map RawRow.start_time, parseTimestamp v = none
    · rcases to_datetime_error_of_bad hs with ⟨w, hw⟩
      exact ⟨w, by simp [load, hw]⟩
    · push_neg at hs
      have hgood : ∀ v ∈ rows.map RawRow.start_time, (parseTimestamp v).isSome := by
        intro v hv
        exact Option.isSome_iff_ne_none.mpr (hs v hv)
      rcases to_datetime_ok_of_good hgood with ⟨ts, hts⟩
      have he : ∃ v ∈ rows.map RawRow.end_time, parseTimestamp v = none := by
        rcases h with ⟨r, hr, hbad | hbad⟩
        · exact absurd hbad (hs _ (List.mem_map_of_mem _ hr))
        · exact ⟨r.end_time, List.mem_map_of_mem _ hr, hbad⟩
      rcases to_datetime_error_of_bad he with ⟨w, hw⟩
      exact ⟨w, by simp [load, hts, hw]⟩
  rcases main with ⟨v, hv⟩
  exact ⟨⟨v, hv⟩, ⟨v, by simp [startup, hv]⟩⟩

/-- Witness for C4: a single row whose start cell is not a timestamp
makes the whole load error out. -/
theorem claim_C4_malformed_timestamp_fatal_witness :
    ∃ v, load (.present [badRaw]) = Except.error (PyError.malformedTimestamp v) :=
  (claim_C4_malformed_timestamp_fatal [badRaw]
    ⟨badRaw, List.mem_cons_self _ _, Or.inl (by decide)⟩).1

/-- Claim C5: for every table, a None or empty-string selection makes the
entry point return, without failing, the empty chart specification: a
figure whose dataset (the Filtered View handed to the renderer) has zero
rows, hence zero bars. -/
theorem claim_C5_empty_selection (df : DataFrame) :
    update_gantt_chart df none = Except.ok empty_timeline_figure
    ∧ update_gantt_chart df (some "") = Except.ok empty_timeline_figure
    ∧ empty_timeline_figure.data = [] :=
  ⟨rfl, rfl, rfl⟩

/-- Claim C6: a non-empty key matching no record filters to an empty view
without an error, and the chart built from it has zero bars, the same
bar list as the empty selection. -/
theorem claim_C6_unknown_key_empty (rows : List Activity) (k : String) (hk : ¬ k = "")
    (h : ∀ a ∈ rows, ¬ a.EQUIPO = some k) :
    filterTransform rows k = []
    ∧ ∃ fig, update_gantt_chart ⟨true, rows⟩ (some k) = Except.ok fig
        ∧ fig.data = empty_timeline_figure.data := by
  have hf : (rows.filter fun a => a.EQUIPO == some k) = [] :=
    List.filter_eq_nil_iff.mpr (fun a ha => by simpa using h a ha)
  have hft : filterTransform rows k = [] := by
    rw [filterTransform, hf]
    rfl
  rcases update_gantt_chart_main_data rows k hk with ⟨fig, h1, h2⟩
  exact ⟨hft, fig, h1, h2.trans hft⟩

/-- Witness for C6: the scenario table has no equipment Z, so selecting Z
yields the empty view and a zero-bar figure. -/
theorem claim_C6_unknown_key_empty_witness :
    filterTransform [bobActivity, annActivity] "Z" = []
    ∧ ∃ fig, update_gantt_chart ⟨true, [bobActivity, annActivity]⟩ (some "Z") = Except.ok fig
        ∧ fig.data = empty_timeline_figure.data :=
  claim_C6_unknown_key_empty [bobActivity, annActivity] "Z" (by decide) (by decide)

/-- Claim C7: the rename is lossless and invertible: the inverse rename
recovers every activity record, and each record of any Filtered View
carries, in its Task, Start, Finish and Resource fields, exactly the
task description, start timestamp, end timestamp and assigned person of
the source record it renames. -/
theorem claim_C7_rename_lossless :
    (∀ a : Activity, renameInverse (renameColumns a) = a)
    ∧ ∀ (rows : List Activity) (k : String) (v : ViewRecord), v ∈ filterTransform rows k →
        ∃ a ∈ rows, v.Task = a.ACTIVIDAD ∧ v.Start = a.start_time ∧ v.Finish = a.end_time
          ∧ v.Resource = a.PERSONA ∧ renameInverse v = a := by
  refine ⟨fun a => rfl, ?_⟩
  intro rows k v hv
  rcases mem_filterTransform hv with ⟨a, ha, hak, rfl⟩
  exact ⟨a, ha, rfl, rfl, rfl, rfl, rfl⟩

/-- Witness for C7: the Ann/Repair view record of the scenario round-trips
to its source activity. -/
theorem claim_C7_rename_lossless_witness :
    ∃ a ∈ [bobActivity, annActivity],
      (renameColumns annActivity).Task = a.ACTIVIDAD
      ∧ (renameColumns annActivity).Start = a.start_time
      ∧ (renameColumns annActivity).Finish = a.end_time
      ∧ (renameColumns annActivity).Resource = a.PERSONA
      ∧ renameInverse (renameColumns annActivity) = a :=
  claim_C7_rename_lossless.2 [bobActivity, annActivity] "A" (renameColumns annActivity) (by decide)

/-- Claim C8: the dropdown options are the distinct non-null EQUIPO values
of the table in order of first occurrence (no duplicates, membership is
exactly the non-null equipment identifiers, and any two options are
ordered by their first occurrence in the dropna'd column), and the
initial selection is the head of that list: the first identifier when
one exists, None otherwise. -/
theorem claim_C8_dropdown_spec (rows : List Activity) :
    unique_equipos ⟨true, rows⟩ = Except.ok (uniqueAux [] (rows.filterMap Activity.EQUIPO))
    ∧ (uniqueAux [] (rows.filterMap Activity.EQUIPO)).Nodup
    ∧ (∀ x, x ∈ uniqueAux [] (rows.filterMap Activity.EQUIPO) ↔ ∃ a ∈ rows, a.EQUIPO = some x)
    ∧ (uniqueAux [] (rows.filterMap Activity.EQUIPO)).Pairwise
        (fun x y => firstIdx x (rows.filterMap Activity.EQUIPO)
          < firstIdx y (rows.filterMap Activity.EQUIPO))
    ∧ (dropdown_options (uniqueAux [] (rows.filterMap Activity.EQUIPO))).map DropdownOption.value
        = uniqueAux [] (rows.filterMap Activity.EQUIPO)
    ∧ dropdown_value (uniqueAux [] (rows.filterMap Activity.EQUIPO))
        = (uniqueAux [] (rows.filterMap Activity.EQUIPO)).head? := by
  refine ⟨rfl, nodup_uniqueAux _ _, ?_, pairwise_firstIdx_uniqueAux _ _, ?_, dropdown_value_eq_head _⟩
  · intro x
    rw [mem_uniqueAux]
    simp [List.mem_filterMap]
  · rw [dropdown_options, List.map_map]
    exact List.map_id _

/-- Witness for C8: on the scenario table the option list is exactly A and
the initial selection is A. -/
theorem claim_C8_dropdown_spec_witness :
    ("A" ∈ uniqueAux [] ([bobActivity, annActivity].filterMap Activity.EQUIPO)
      ↔ ∃ a ∈ [bobActivity, annActivity], a.EQUIPO = some "A")
    ∧ ∃ a ∈ [bobActivity, annActivity], a.EQUIPO = some "A" :=
  ⟨(claim_C8_dropdown_spec [bobActivity, annActivity]).2.2.1 "A",
   ((claim_C8_dropdown_spec [bobActivity, annActivity]).2.2.1 "A").mp (by decide)⟩

/-- Claim C9: no selection event mutates the shared state: the process
state (table and colour map) after any event, and after any sequence of
events, is the state loaded at startup. -/
theorem claim_C9_no_mutation (s : ProcState) (ks : List (Option String)) :
    (∀ k, (selectionEvent s k).2 = s)
    ∧ runEvents s ks = s
    ∧ (runEvents s ks).df = s.df
    ∧ (runEvents s ks).colors = s.colors :=
  ⟨fun _ => rfl, runEvents_eq ks s, by rw [runEvents_eq], by rw [runEvents_eq]⟩

/-- Claim C10: a falsy selection (None or the empty string) returns the
empty chart without consulting the table (the result is independent of
the DataFrame), and consequently no figure the callback ever returns
displays a record whose EQUIPO is the empty string, even when the table
contains one. -/
theorem claim_C10_falsy_keys :
    (∀ (df df2 : DataFrame) (k : Option String), isFalsy k = true →
       update_gantt_chart df k = Except.ok empty_timeline_figure
       ∧ update_gantt_chart df k = update_gantt_chart df2 k)
    ∧ ∀ (df : DataFrame) (k : Option String) (fig : Figure),
        update_gantt_chart df k = Except.ok fig → ∀ v ∈ fig.data, ¬ v.EQUIPO = some "" := by
  constructor
  · intro df df2 k hk
    match k with
    | none => exact ⟨rfl, rfl⟩
    | some s =>
      have hs : s = "" := by simpa [isFalsy] using hk
      subst hs
      exact ⟨rfl, rfl⟩
  · intro df k fig hfig v hv hveq
    obtain ⟨hcols, rows⟩ := df
    match k with
    | none =>
      rw [update_gantt_chart] at hfig
      cases hfig
      cases hv
    | some s =>
      by_cases hs : s = ""
      · subst hs
        rw [show update_gantt_chart ⟨hcols, rows⟩ (some "") = Except.ok empty_timeline_figure
              from rfl] at hfig
        cases hfig
        cases hv
      · cases hcols with
        | false =>
          rw [show update_gantt_chart ⟨false, rows⟩ (some s)
                = if s = "" then Except.ok empty_timeline_figure
                  else Except.error (PyError.keyError "EQUIPO") from rfl, if_neg hs] at hfig
          cases hfig
        | true =>
          rw [update_gantt_chart_main rows s hs] at hfig
          cases hfig
          rcases mem_filterTransform hv with ⟨a, ha, hak, rfl⟩
          rw [show (renameColumns a).EQUIPO = a.EQUIPO from rfl, hak] at hveq
          exact hs (by simpa using hveq)

/-- Witness for C10: with a table containing a record whose EQUIPO is the
empty string, selecting the empty string still yields the empty figure,
and that figure displays no empty-EQUIPO record. -/
theorem claim_C10_falsy_keys_witness :
    update_gantt_chart ⟨true, [⟨some "", "T", "P", "ALTA", 0, 1⟩]⟩ (some "")
      = Except.ok empty_timeline_figure
    ∧ ∀ v ∈ empty_timeline_figure.data, ¬ v.EQUIPO = some "" :=
  ⟨(claim_C10_falsy_keys.1 ⟨true, [⟨some "", "T", "P", "ALTA", 0, 1⟩]⟩ ⟨true, []⟩
      (some "") rfl).1,
   claim_C10_falsy_keys.2 ⟨true, [⟨some "", "T", "P", "ALTA", 0, 1⟩]⟩ (some "")
     empty_timeline_figure
     (claim_C10_falsy_keys.1 ⟨true, [⟨some "", "T", "P", "ALTA", 0, 1⟩]⟩ ⟨true, []⟩
       (some "") rfl).1⟩

end DashVentanas
